import Mathlib

/-!
Shallow embedding of the call-log persistence component (src/db.py) of the
InboundAIVoice repository, together with theorems settling the frozen claims
about its specification.

Modelling conventions:
* Python strings are Lean `String`s; the substring test `needle in hay` is
  `strContains hay needle`, and `str.lower()` is `strLower` (ASCII lowering,
  which is exact for every string the classifiers compare against).
* The Supabase store is an oracle: for the write path a function
  `Store : Nat → Payload → InsertRes` mapping the index of the insert
  invocation (a global call counter, so stateful store doubles are
  expressible) and the submitted payload to either returned rows or a raised
  error whose `str()` is the carried message.  For the read path a function
  `Nat → FetchRes` mapping the query-invocation index to the table contents
  or a raised error.
* `time.sleep(d)` is modelled by accumulating `d` into a sleep counter; the
  delays 1.0, 2.0, 4.0 seconds are integral, so the counter is a `Nat` of
  seconds.
* Python `round`, applied here to exact integer ratios, is round-half-to-even
  (`pyRoundFrac num den`); the float divisions in fetch_stats are modelled by
  exact rational arithmetic on the integer numerator/denominator.
* `estimated_cost_usd` is a float in the source; no claim inspects its value,
  only the presence of its column, so its value is carried as an `Int`.
-/

/-- Decides whether `needle` occurs as a contiguous sublist of the second
argument (Python `in` on strings, character-list form). -/
def containsSub (needle : List Char) : List Char → Bool
  | [] => needle.isPrefixOf []
  | c :: cs => needle.isPrefixOf (c :: cs) || containsSub needle cs

/-- Python `needle in hay` for strings. -/
def strContains (hay needle : String) : Bool := containsSub needle.toList hay.toList

/-- Python `s.lower()` (ASCII case folding, exact for the literals compared here). -/
def strLower (s : String) : String := ⟨s.toList.map Char.toLower⟩

/-- Python `round` on the exact ratio `num / den` (`den > 0`): round half to even. -/
def pyRoundFrac (num den : Int) : Int :=
  let f := Int.fdiv num den
  let r := num - f * den
  if 2 * r < den then f
  else if 2 * r > den then f + 1
  else if f % 2 = 0 then f else f + 1

/-! Constants of db.py (lines 11-20). -/

/-- db.py `_ANALYTICS_COLUMNS`. -/
def ANALYTICS_COLUMNS : List String :=
  ["sentiment", "was_booked", "interrupt_count",
   "estimated_cost_usd", "call_date", "call_hour", "call_day_of_week"]

/-- db.py `_BASE_COLUMNS`. -/
def BASE_COLUMNS : List String :=
  ["phone_number", "duration_seconds", "transcript", "summary",
   "recording_url", "caller_name"]

/-- db.py `_MAX_RETRIES`. -/
def MAX_RETRIES : Nat := 3

/-- db.py `_RETRY_DELAYS` (seconds; the source floats 1.0, 2.0, 4.0 are integral). -/
def RETRY_DELAYS : List Nat := [1, 2, 4]

/-- db.py `_is_retryable`: any of the transient keywords occurs in the lowered
error string. -/
def is_retryable (err_str : String) : Bool :=
  ["525", "ssl", "timeout", "connection", "network", "502", "503", "504"].any
    (fun k => strContains (strLower err_str) k)

/-- db.py `_is_schema_error`: "PGRST204" occurs in the raw error string
(case-sensitive), or "schema cache" occurs in the lowered one. -/
def is_schema_error (err_str : String) : Bool :=
  strContains err_str "PGRST204" || strContains (strLower err_str) "schema cache"

/-- The three-way error taxonomy of the spec. -/
inductive ErrKind
  | schema
  | transient
  | permanent
deriving DecidableEq, Repr

/-- The error classifier, in the order `_try_insert` consults the two
predicates: schema mismatch first, then transient, else permanent. -/
def classify (err_str : String) : ErrKind :=
  if is_schema_error err_str then .schema
  else if is_retryable err_str then .transient
  else .permanent

/-! Data model: payloads and call records. -/

/-- A JSON-ish payload value. -/
inductive Val
  | s (x : String)
  | i (x : Int)
  | b (x : Bool)
deriving DecidableEq, Repr

/-- A payload: the insertion-ordered key/value pairs of the Python dict. -/
abbrev Payload := List (String × Val)

/-- The arguments of `save_call_log` (db.py lines 51-64), with the source's
defaults. -/
structure CallRecord where
  phone : String
  duration : Int
  transcript : String
  summary : String := ""
  recording_url : String := ""
  caller_name : String := ""
  sentiment : String := "unknown"
  estimated_cost_usd : Option Int := none
  call_date : Option String := none
  call_hour : Option Int := none
  call_day_of_week : Option String := none
  was_booked : Bool := false
  interrupt_count : Int := 0
deriving DecidableEq, Repr

/-- Python truthiness of a `str | None` value: not None and not empty. -/
def optStrTruthy : Option String → Bool
  | none => false
  | some s => !(s == "")

/-- The full payload built by save_call_log (db.py lines 86-100): seven
unconditional entries, then each optional field appended only when truthy
(non-empty string) or not None. -/
def full_data (c : CallRecord) : Payload :=
  [("phone_number", Val.s c.phone),
   ("duration_seconds", Val.i c.duration),
   ("transcript", Val.s c.transcript),
   ("summary", Val.s c.summary),
   ("sentiment", Val.s c.sentiment),
   ("was_booked", Val.b c.was_booked),
   ("interrupt_count", Val.i c.interrupt_count)]
  ++ (if c.recording_url == "" then [] else [("recording_url", Val.s c.recording_url)])
  ++ (if c.caller_name == "" then [] else [("caller_name", Val.s c.caller_name)])
  ++ (match c.estimated_cost_usd with
      | some x => [("estimated_cost_usd", Val.i x)]
      | none => [])
  ++ (match c.call_date with
      | some dt => if dt == "" then [] else [("call_date", Val.s dt)]
      | none => [])
  ++ (match c.call_hour with
      | some h => [("call_hour", Val.i h)]
      | none => [])
  ++ (match c.call_day_of_week with
      | some w => if w == "" then [] else [("call_day_of_week", Val.s w)]
      | none => [])

/-- The base-only payload (db.py line 103): full payload minus analytics keys. -/
def base_data (c : CallRecord) : Payload :=
  (full_data c).filter (fun kv => !(ANALYTICS_COLUMNS.contains kv.1))

/-- Whether a payload carries at least one analytics column. -/
def hasAnalytics (p : Payload) : Bool :=
  p.any (fun kv => ANALYTICS_COLUMNS.contains kv.1)

/-- The keys of a payload, in insertion order. -/
def payloadKeys (p : Payload) : List String := p.map Prod.fst

/-! Write path: the store oracle and save_call_log. -/

/-- Result of one `supabase.table("call_logs").insert(data).execute()` call:
either the inserted rows, or a raised error whose string form is carried. -/
inductive InsertRes
  | ok (data : List Payload)
  | exn (msg : String)
deriving DecidableEq

/-- A store double for the write path: invocation index and payload to result. -/
def Store := Nat → Payload → InsertRes

/-- The dict returned by `_try_insert` / `save_call_log`. -/
inductive SaveDict
  | success (data : List Payload)
  | failure (message : String)
deriving DecidableEq, Repr

/-- Result of a `_try_insert` call: a returned dict, or a raised
RuntimeError carrying the given string. -/
inductive TryRes
  | ret (d : SaveDict)
  | raised (msg : String)
deriving DecidableEq, Repr

/-- The loop of `_try_insert` (db.py lines 105-123).  `fuel` is the number of
remaining loop iterations (initially `MAX_RETRIES`), `attempt` the Python loop
variable, `calls` the global insert-invocation counter and `slept` the
accumulated sleep seconds.  A schema-classified error raises
"SCHEMA_ERROR:" + err at once; a retryable error before the final attempt
sleeps the scheduled delay and continues; any other error returns a failure
dict; a loop that exhausts its range returns "Max retries exceeded". -/
def try_insert_loop (store : Store) (data : Payload) :
    Nat → Nat → Nat → Nat → TryRes × Nat × Nat
  | 0, _, calls, slept => (.ret (.failure "Max retries exceeded"), calls, slept)
  | fuel + 1, attempt, calls, slept =>
    match store calls data with
    | .ok d => (.ret (.success d), calls + 1, slept)
    | .exn e =>
      if is_schema_error e then
        (.raised ("SCHEMA_ERROR:" ++ e), calls + 1, slept)
      else if is_retryable e && decide (attempt < MAX_RETRIES - 1) then
        try_insert_loop store data fuel (attempt + 1) (calls + 1)
          (slept + RETRY_DELAYS.getD attempt 0)
      else
        (.ret (.failure e), calls + 1, slept)

/-- `_try_insert(data, label)` starting from the given call/sleep counters. -/
def try_insert (store : Store) (data : Payload) (calls slept : Nat) :
    TryRes × Nat × Nat :=
  try_insert_loop store data MAX_RETRIES 0 calls slept

/-- What a `save_call_log` call does to the outside world: a returned dict, or
an exception escaping the function. -/
inductive SaveOutcome
  | ret (d : SaveDict)
  | raised (msg : String)
deriving DecidableEq, Repr

/-- db.py `save_call_log` (lines 51-137).  `url`/`key` are the environment
credentials, `clientOk` whether `create_client` succeeds.  Returns the
outcome together with the number of insert invocations performed and the
total seconds slept.  The full payload is tried first; a raised message
containing "SCHEMA_ERROR" triggers the single base-payload fallback, whose
own raised error (there is no enclosing handler in the source) escapes. -/
def save_call_log (url key : String) (clientOk : Bool) (store : Store)
    (c : CallRecord) : SaveOutcome × Nat × Nat :=
  if url == "" || key == "" then
    (.ret (.failure "Supabase not configured"), 0, 0)
  else if !clientOk then
    (.ret (.failure "Supabase client failed"), 0, 0)
  else
    match try_insert store (full_data c) 0 0 with
    | (.ret d, calls, slept) => (.ret d, calls, slept)
    | (.raised e, calls, slept) =>
      if strContains e "SCHEMA_ERROR" then
        match try_insert store (base_data c) calls slept with
        | (.ret d, calls2, slept2) => (.ret d, calls2, slept2)
        | (.raised e2, calls2, slept2) => (.raised e2, calls2, slept2)
      else
        (.raised e, calls, slept)

/-! Read path: fetch_bookings and fetch_stats. -/

/-- A row of the call_logs table as the read path sees it; `none` stands for
a NULL column value: the store emits every selected column, so a NULL arrives
as a present None in the row dict. -/
structure TableRow where
  id : Int
  phone_number : String
  summary : Option String := none
  duration_seconds : Option Int := none
  created_at : Int := 0
deriving DecidableEq, Repr

/-- Result of one read query execution against the store. -/
inductive FetchRes
  | ok (table : List TableRow)
  | exn (msg : String)

/-- The reduced field set returned by fetch_bookings
(select "id, phone_number, summary, created_at"). -/
structure BookingRow where
  id : Int
  phone_number : String
  summary : Option String
  created_at : Int
deriving DecidableEq, Repr

/-- One row of the fetch_bookings projection. -/
def bookingProj (r : TableRow) : BookingRow :=
  ⟨r.id, r.phone_number, r.summary, r.created_at⟩

/-- The ilike "%Confirmed%" filter of fetch_bookings: case-insensitive
substring match on the summary column; a NULL summary never matches. -/
def ilikeConfirmed (r : TableRow) : Bool :=
  match r.summary with
  | none => false
  | some s => strContains (strLower s) (strLower "Confirmed")

/-- Descending created_at comparison used to model `.order("created_at", desc=True)`. -/
def createdDesc (a b : TableRow) : Bool := decide (b.created_at ≤ a.created_at)

/-- Semantics of the query fetch_bookings sends to the store (db.py lines
172-178): filter by ilike "%Confirmed%", order by created_at descending,
limit 200, project to the reduced field set. -/
def bookingsQuery (table : List TableRow) : List BookingRow :=
  ((((table.filter ilikeConfirmed).mergeSort createdDesc).take 200).map bookingProj)

/-- db.py `fetch_bookings` (lines 167-183): no client means an empty result and
no query; otherwise a single query whose raised error yields an empty list.
The second component counts query executions. -/
def fetch_bookings (supabaseOk : Bool) (store : Nat → FetchRes) :
    List BookingRow × Nat :=
  if !supabaseOk then ([], 0)
  else
    match store 0 with
    | .ok table => (bookingsQuery table, 1)
    | .exn _ => ([], 1)

/-- The dict returned by fetch_stats. -/
structure StatsDict where
  total_calls : Int
  total_bookings : Int
  avg_duration : Int
  booking_rate : Int
deriving DecidableEq, Repr

/-- The all-zero stats dict `_empty` (db.py line 189). -/
def emptyStats : StatsDict := ⟨0, 0, 0, 0⟩

/-- The booking test of fetch_stats (db.py line 196): case-sensitive
`"Confirmed" in r.get("summary", "")`.  A NULL summary is a present None, so
`r.get` returns None — not the default — and the containment test raises
TypeError; the raise is `none`, a computed test is `some b`. -/
def statsIsBooking (r : TableRow) : Option Bool :=
  match r.summary with
  | none => none
  | some s => some (strContains s "Confirmed")

/-- The booking count of db.py line 196, summed row by row; the TypeError
raised at the first NULL summary aborts the whole sum (`none`). -/
def bookingsCount : List TableRow → Option Int
  | [] => some 0
  | r :: rest =>
    match statsIsBooking r with
    | none => none
    | some b => (bookingsCount rest).map (fun n => (if b then 1 else 0) + n)

/-- Python truthiness of `r.get("duration_seconds")`: not None and nonzero. -/
def durTruthy (r : TableRow) : Bool :=
  match r.duration_seconds with
  | none => false
  | some d => decide (d ≠ 0)

/-- db.py `fetch_stats` (lines 188-203).  The second component counts query
executions.  A TypeError from the booking count (NULL summary) is caught by
the `except Exception` handler like any other raise and yields the all-zero
dict.  The float divisions of the source are modelled exactly:
`round(sum/len)` is `pyRoundFrac sum len` and `round((bookings/total)*100)`
is `pyRoundFrac (bookings*100) total`. -/
def fetch_stats (supabaseOk : Bool) (store : Nat → FetchRes) :
    StatsDict × Nat :=
  if !supabaseOk then (emptyStats, 0)
  else
    match store 0 with
    | .exn _ => (emptyStats, 1)
    | .ok rows =>
      match bookingsCount rows with
      | none => (emptyStats, 1)
      | some bookings =>
        let total : Int := rows.length
        let durations : List Int :=
          (rows.filter durTruthy).map (fun r => r.duration_seconds.getD 0)
        let avg_dur : Int :=
          if durations.length = 0 then 0
          else pyRoundFrac durations.sum durations.length
        let rate : Int := if total = 0 then 0 else pyRoundFrac (bookings * 100) total
        (⟨total, bookings, avg_dur, rate⟩, 1)

/-! Concrete doubles and records used by witnesses and counterexamples. -/

/-- A store double that is never reached (used for unconfigured-mode checks). -/
def idleStore : Store := fun _ _ => .exn "boom"

/-- A minimal call record. -/
def recA : CallRecord := { phone := "+15550100", duration := 42, transcript := "t" }

/-- A second minimal call record. -/
def recB : CallRecord := { phone := "+15550101", duration := 7, transcript := "u" }

/-- A third minimal call record. -/
def recC : CallRecord := { phone := "+15550102", duration := 9, transcript := "v" }

/-- A fourth minimal call record. -/
def recD : CallRecord := { phone := "+15550103", duration := 11, transcript := "w" }

/-- A store double that raises a transient error on every insert. -/
def transientStore : Store := fun _ _ => .exn "timeout"

/-- A second always-transient store double. -/
def transientStoreB : Store := fun _ _ => .exn "SSL handshake failed"

/-- A store double that raises a schema-mismatch error on every insert. -/
def schemaStore : Store := fun _ _ => .exn "PGRST204 missing column"

/-- A store double that rejects exactly the payloads carrying analytics
columns with a schema-mismatch error and accepts base-only payloads. -/
def fallbackStore : Store := fun _ p =>
  if hasAnalytics p then .exn "PGRST204: column not found in schema cache"
  else .ok []

/-- The three-row table of the fetch_stats acceptance example: durations
10, 20, 30 and exactly one summary containing "Confirmed". -/
def statsExampleTable : List TableRow :=
  [{ id := 1, phone_number := "+15550001", summary := some "Booking Confirmed",
     duration_seconds := some 10, created_at := 1 },
   { id := 2, phone_number := "+15550002", summary := some "no luck",
     duration_seconds := some 20, created_at := 2 },
   { id := 3, phone_number := "+15550003", summary := some "voicemail",
     duration_seconds := some 30, created_at := 3 }]

/-- A read store serving the stats example table. -/
def statsExampleStore : Nat → FetchRes := fun _ => .ok statsExampleTable

/-- A read store that always raises. -/
def failFetchStore : Nat → FetchRes := fun _ => .exn "timeout"

/-- A second failing read store. -/
def failFetchStoreB : Nat → FetchRes := fun _ => .exn "525 SSL error"

/-- A row whose summary column is NULL (a present None in the row dict). -/
def nullSummaryRow : TableRow :=
  { id := 7, phone_number := "+15550007", summary := none,
    duration_seconds := some 30, created_at := 7 }

/-- A one-row table containing the NULL-summary row. -/
def nullSummaryTable : List TableRow := [nullSummaryRow]

/-- A read store serving the NULL-summary table. -/
def nullSummaryStore : Nat → FetchRes := fun _ => .ok nullSummaryTable

/-- A two-row table for the fetch_bookings witness. -/
def bkTable : List TableRow :=
  [{ id := 4, phone_number := "+15550004", summary := some "nothing",
     created_at := 4 },
   { id := 5, phone_number := "+15550005", summary := some "Confirmed at 5",
     created_at := 5 }]

/-- A read store serving `bkTable`. -/
def bkStore : Nat → FetchRes := fun _ => .ok bkTable

/-- A row whose summary contains "confirmed" but not "Confirmed". -/
def lowerConfirmedRow : TableRow :=
  { id := 6, phone_number := "+15550006", summary := some "appointment confirmed",
    duration_seconds := some 12, created_at := 6 }

/-! Helper lemmas. -/

/-- The executable substring test agrees with the contiguous-sublist relation. -/
theorem containsSub_iff_infix (n : List Char) (h : List Char) :
    containsSub n h = true ↔ n <:+: h := by
  induction h with
  | nil => simp [containsSub, List.isPrefixOf_iff_prefix]
  | cons c cs ih =>
    simp [containsSub, List.isPrefixOf_iff_prefix, ih, List.infix_cons_iff]

/-- String form of `containsSub_iff_infix`. -/
theorem strContains_iff (hay needle : String) :
    strContains hay needle = true ↔ needle.toList <:+: hay.toList := by
  simp [strContains, containsSub_iff_infix]

/-- The schema signal prepended by `_try_insert` always passes the
"SCHEMA_ERROR" containment test performed by `save_call_log`. -/
theorem strContains_schema_signal (e : String) :
    strContains ("SCHEMA_ERROR:" ++ e) "SCHEMA_ERROR" = true := by
  rw [strContains_iff]
  have h1 : "SCHEMA_ERROR".toList <+: "SCHEMA_ERROR:".toList :=
    List.isPrefixOf_iff_prefix.mp (by decide)
  have h2 : ("SCHEMA_ERROR:" ++ e).toList = "SCHEMA_ERROR:".toList ++ e.toList := by
    simp [String.toList]
  rw [h2]
  exact (h1.trans (List.prefix_append _ _)).isInfix

/-- Substring containment is preserved by lowering both strings. -/
theorem strContains_lower_mono {s n : String} (h : strContains s n = true) :
    strContains (strLower s) (strLower n) = true := by
  rw [strContains_iff] at h ⊢
  exact List.IsInfix.map Char.toLower h

/-- The full payload always carries an analytics column (sentiment). -/
theorem hasAnalytics_full_data (c : CallRecord) :
    hasAnalytics (full_data c) = true := by
  simp [hasAnalytics, full_data, ANALYTICS_COLUMNS]

/-- The base payload never carries an analytics column. -/
theorem hasAnalytics_base_data (c : CallRecord) :
    hasAnalytics (base_data c) = false := by
  simp only [hasAnalytics, base_data, List.any_eq_false, List.mem_filter]
  intro kv h
  simpa using h.2

/-- Every message raised out of the `_try_insert` loop is the schema signal:
"SCHEMA_ERROR:" prepended to an error that classifies as a schema mismatch. -/
theorem try_insert_loop_raised_shape (store : Store) (data : Payload) :
    ∀ fuel attempt calls slept m calls2 slept2,
      try_insert_loop store data fuel attempt calls slept = (.raised m, calls2, slept2) →
      ∃ e, m = "SCHEMA_ERROR:" ++ e ∧ is_schema_error e = true := by
  intro fuel
  induction fuel with
  | zero =>
    intro attempt calls slept m calls2 slept2 h
    simp [try_insert_loop] at h
  | succ n ih =>
    intro attempt calls slept m calls2 slept2 h
    rw [try_insert_loop] at h
    cases hst : store calls data with
    | ok d => rw [hst] at h; simp at h
    | exn e =>
      rw [hst] at h
      by_cases hs : is_schema_error e
      · simp [hs] at h
        exact ⟨e, h.1.symm, hs⟩
      · simp [hs] at h
        by_cases hr : is_retryable e = true ∧ attempt < MAX_RETRIES - 1
        · rw [if_pos hr] at h
          exact ih _ _ _ _ _ _ h
        · rw [if_neg hr] at h
          simp at h

/-! Claim theorems: write path. -/

/-- C6: when the store URL or API key is absent, save_call_log returns
success=false with the "Supabase not configured" detail immediately,
performing zero insert invocations and zero sleep. -/
theorem C6_unconfigured_noop (url key : String) (clientOk : Bool) (store : Store)
    (c : CallRecord) (h : url = "" ∨ key = "") :
    save_call_log url key clientOk store c =
      (.ret (.failure "Supabase not configured"), 0, 0) := by
  rcases h with h | h <;> subst h <;> simp [save_call_log]

/-- Witness for C6: a concrete call with an empty URL returns the degraded
result without touching the store. -/
theorem C6_unconfigured_noop_witness :
    save_call_log "" "somekey" true idleStore recA =
      (.ret (.failure "Supabase not configured"), 0, 0) :=
  C6_unconfigured_noop "" "somekey" true idleStore recA (Or.inl rfl)

/-- C4 counterexample: "pgrst204" contains "PGRST204" case-insensitively, yet
the classifier marks it permanent, because the source matches "PGRST204"
case-sensitively (db.py line 32); so the claim's case-insensitive reading of
the schema-mismatch test is false. -/
theorem C4_counterexample :
    strContains (strLower "pgrst204") (strLower "PGRST204") = true ∧
    classify "pgrst204" = ErrKind.permanent := by
  decide

/-- C4 (amended): the classifier marks an error string schema-mismatch iff it
contains "PGRST204" case-sensitively or "schema cache" case-insensitively;
transient iff it is not schema-mismatch and its lowering contains one of the
eight transient keywords; and permanent otherwise. -/
theorem C4_classifier (e : String) :
    (classify e = ErrKind.schema ↔
      (strContains e "PGRST204" = true ∨
       strContains (strLower e) "schema cache" = true)) ∧
    (classify e = ErrKind.transient ↔
      (¬ (strContains e "PGRST204" = true ∨
          strContains (strLower e) "schema cache" = true) ∧
       (strContains (strLower e) "525" = true ∨
        strContains (strLower e) "ssl" = true ∨
        strContains (strLower e) "timeout" = true ∨
        strContains (strLower e) "connection" = true ∨
        strContains (strLower e) "network" = true ∨
        strContains (strLower e) "502" = true ∨
        strContains (strLower e) "503" = true ∨
        strContains (strLower e) "504" = true))) ∧
    (classify e = ErrKind.permanent ↔
      (¬ (strContains e "PGRST204" = true ∨
          strContains (strLower e) "schema cache" = true) ∧
       ¬ (strContains (strLower e) "525" = true ∨
          strContains (strLower e) "ssl" = true ∨
          strContains (strLower e) "timeout" = true ∨
          strContains (strLower e) "connection" = true ∨
          strContains (strLower e) "network" = true ∨
          strContains (strLower e) "502" = true ∨
          strContains (strLower e) "503" = true ∨
          strContains (strLower e) "504" = true))) := by
  have hs : is_schema_error e = true ↔
      (strContains e "PGRST204" = true ∨
       strContains (strLower e) "schema cache" = true) := by
    simp [is_schema_error]
  have hr : is_retryable e = true ↔
      (strContains (strLower e) "525" = true ∨
       strContains (strLower e) "ssl" = true ∨
       strContains (strLower e) "timeout" = true ∨
       strContains (strLower e) "connection" = true ∨
       strContains (strLower e) "network" = true ∨
       strContains (strLower e) "502" = true ∨
       strContains (strLower e) "503" = true ∨
       strContains (strLower e) "504" = true) := by
    simp [is_retryable]
  rw [← hs, ← hr]
  by_cases h1 : is_schema_error e = true <;> by_cases h2 : is_retryable e = true <;>
    simp [classify, h1, h2]

/-- C3 counterexample: a store whose insert always raises "timeout" drives
save_call_log to success=false after 3 attempts, but the returned detail is
the raw error string, which does not contain "max retries"; the
"Max retries exceeded" return of db.py line 123 is unreachable. -/
theorem C3_counterexample :
    save_call_log "u" "k" true transientStore recA =
      (.ret (.failure "timeout"), 3, 3) ∧
    strContains (strLower "timeout") "max retries" = false := by
  decide

/-- C3 (amended): for a store that raises the same transient-classified error
on every insert of the full payload, save_call_log performs exactly 3 insert
invocations and returns success=false with that error string as the detail
(total sleep 3 seconds). -/
theorem C3_transient_exhaustion (url key : String) (store : Store) (c : CallRecord)
    (e : String) (hu : url ≠ "") (hk : key ≠ "")
    (hst : ∀ n, store n (full_data c) = .exn e)
    (hre : is_retryable e = true) (hse : is_schema_error e = false) :
    save_call_log url key true store c = (.ret (.failure e), 3, 3) := by
  have hu2 : (url == "") = false := beq_eq_false_iff_ne.mpr hu
  have hk2 : (key == "") = false := beq_eq_false_iff_ne.mpr hk
  simp [save_call_log, hu2, hk2, try_insert, try_insert_loop, hst, hre, hse,
    MAX_RETRIES, RETRY_DELAYS]

/-- Witness for the amended C3 at the concrete always-"timeout" store. -/
theorem C3_transient_exhaustion_witness :
    save_call_log "u" "k" true transientStore recA =
      (.ret (.failure "timeout"), 3, 3) :=
  C3_transient_exhaustion "u" "k" transientStore recA "timeout" (by decide)
    (by decide) (fun _ => rfl) (by decide) (by decide)

/-- C5 counterexample: for a fully-retried transient failure the total slept
backoff is 3 seconds, not the 7-second sum of the whole delay schedule; the
4-second delay is never slept. -/
theorem C5_counterexample :
    (save_call_log "u" "k" true transientStoreB recB).2.2 = 3 ∧
    (save_call_log "u" "k" true transientStoreB recB).2.2 ≠ RETRY_DELAYS.sum := by
  decide

/-- C5 (amended): a fully-retried transient failure sleeps exactly the first
two scheduled delays, 1s + 2s = 3s in total; no delay follows the final
attempt, so the 4s entry of the schedule is never slept. -/
theorem C5_backoff_total (url key : String) (store : Store) (c : CallRecord)
    (e : String) (hu : url ≠ "") (hk : key ≠ "")
    (hst : ∀ n, store n (full_data c) = .exn e)
    (hre : is_retryable e = true) (hse : is_schema_error e = false) :
    (save_call_log url key true store c).2.2 =
      RETRY_DELAYS.getD 0 0 + RETRY_DELAYS.getD 1 0 := by
  have hu2 : (url == "") = false := beq_eq_false_iff_ne.mpr hu
  have hk2 : (key == "") = false := beq_eq_false_iff_ne.mpr hk
  simp [save_call_log, hu2, hk2, try_insert, try_insert_loop, hst, hre, hse,
    MAX_RETRIES, RETRY_DELAYS]

/-- Witness for the amended C5 at a concrete always-transient store. -/
theorem C5_backoff_total_witness :
    (save_call_log "u" "k" true transientStoreB recB).2.2 =
      RETRY_DELAYS.getD 0 0 + RETRY_DELAYS.getD 1 0 :=
  C5_backoff_total "u" "k" transientStoreB recB "SSL handshake failed"
    (by decide) (by decide) (fun _ => rfl) (by decide) (by decide)

/-- C2 counterexample: a store that answers every insert with a
schema-mismatch error makes save_call_log raise the internal schema signal to
its caller (the base-fallback attempt has no enclosing handler), so not every
store behavior yields a structured outcome. -/
theorem C2_counterexample :
    (save_call_log "u" "k" true schemaStore recC).1 =
      SaveOutcome.raised "SCHEMA_ERROR:PGRST204 missing column" := by
  decide

/-- C2 (amended): for every store behavior, save_call_log either returns a
structured outcome dict, or raises exactly the internal schema signal —
"SCHEMA_ERROR:" prepended to a schema-classified error — which happens
precisely when the base-fallback attempt itself hits a schema mismatch. -/
theorem C2_outcome_shape (url key : String) (clientOk : Bool) (store : Store)
    (c : CallRecord) :
    (∃ d, (save_call_log url key clientOk store c).1 = .ret d) ∨
    (∃ e, (save_call_log url key clientOk store c).1 =
        .raised ("SCHEMA_ERROR:" ++ e) ∧ is_schema_error e = true) := by
  unfold save_call_log
  by_cases hcfg : (url == "" || key == "") = true
  · rw [if_pos hcfg]
    exact Or.inl ⟨_, rfl⟩
  · rw [if_neg hcfg]
    by_cases hck : (!clientOk) = true
    · rw [if_pos hck]
      exact Or.inl ⟨_, rfl⟩
    · rw [if_neg hck]
      rcases h1 : try_insert store (full_data c) 0 0 with ⟨tr, calls, slept⟩
      cases tr with
      | ret d => exact Or.inl ⟨d, rfl⟩
      | raised m =>
        have h1l : try_insert_loop store (full_data c) MAX_RETRIES 0 0 0 =
            (.raised m, calls, slept) := by
          rw [← try_insert]; exact h1
        obtain ⟨e, hm, he⟩ :=
          try_insert_loop_raised_shape store (full_data c) _ _ _ _ _ _ _ h1l
        subst hm
        dsimp only
        rw [if_pos (strContains_schema_signal e)]
        rcases h2 : try_insert store (base_data c) calls slept with ⟨tr2, c2, s2⟩
        cases tr2 with
        | ret d => exact Or.inl ⟨d, rfl⟩
        | raised m2 =>
          have h2l : try_insert_loop store (base_data c) MAX_RETRIES 0 calls slept =
              (.raised m2, c2, s2) := by
            rw [← try_insert]; exact h2
          obtain ⟨e2, hm2, he2⟩ :=
            try_insert_loop_raised_shape store (base_data c) _ _ _ _ _ _ _ h2l
          subst hm2
          exact Or.inr ⟨e2, rfl, he2⟩

/-- C1: for a store that rejects exactly the payloads carrying analytics
columns with a schema-classified error and accepts analytics-free payloads,
save_call_log performs exactly 2 insert invocations — the full payload once,
whose schema mismatch aborts the retry loop at once, then the base payload
once — and succeeds without sleeping. -/
theorem C1_schema_fallback (url key : String) (store : Store) (c : CallRecord)
    (e : String) (d : List Payload) (hu : url ≠ "") (hk : key ≠ "")
    (he : is_schema_error e = true)
    (hst : ∀ n p, store n p = if hasAnalytics p then .exn e else .ok d) :
    save_call_log url key true store c = (.ret (.success d), 2, 0) := by
  have hu2 : (url == "") = false := beq_eq_false_iff_ne.mpr hu
  have hk2 : (key == "") = false := beq_eq_false_iff_ne.mpr hk
  have hs0 : store 0 (full_data c) = .exn e := by
    rw [hst, hasAnalytics_full_data]; rfl
  have hs1 : store 1 (base_data c) = .ok d := by
    rw [hst, hasAnalytics_base_data]; rfl
  simp [save_call_log, hu2, hk2, try_insert, try_insert_loop, hs0, hs1, he,
    strContains_schema_signal, MAX_RETRIES]

/-- Witness for C1 at the concrete analytics-rejecting store double: exactly
two inserts, then success. -/
theorem C1_schema_fallback_witness :
    save_call_log "u" "k" true fallbackStore recD = (.ret (.success []), 2, 0) :=
  C1_schema_fallback "u" "k" fallbackStore recD
    "PGRST204: column not found in schema cache" [] (by decide) (by decide)
    (by decide) (fun _ _ => rfl)

/-! Claim theorems: read path. -/

/-- When no summary is NULL, the booking count computes without raising: it is
the number of rows whose summary contains "Confirmed". -/
theorem bookingsCount_of_no_null (rows : List TableRow)
    (h : ∀ r ∈ rows, r.summary ≠ none) :
    bookingsCount rows =
      some (((rows.filter
        (fun r => strContains (r.summary.getD "") "Confirmed")).length : Int)) := by
  induction rows with
  | nil => simp [bookingsCount]
  | cons r rest ih =>
    have hr : r.summary ≠ none := h r (by simp)
    have ih2 := ih (fun x hx => h x (List.mem_cons_of_mem _ hx))
    obtain ⟨s, hs⟩ := Option.ne_none_iff_exists'.mp hr
    by_cases hb : strContains s "Confirmed" = true <;>
      simp [bookingsCount, statsIsBooking, hs, ih2, List.filter_cons, hb] <;>
      omega

/-- A NULL summary anywhere in the row set makes the booking count raise. -/
theorem bookingsCount_of_null (rows : List TableRow)
    (h : ∃ r ∈ rows, r.summary = none) : bookingsCount rows = none := by
  induction rows with
  | nil => simp at h
  | cons r rest ih =>
    rcases h with ⟨x, hx, hxs⟩
    rcases List.mem_cons.mp hx with rfl | hx2
    · simp [bookingsCount, statsIsBooking, hxs]
    · cases hr : r.summary with
      | none => simp [bookingsCount, statsIsBooking, hr]
      | some s => simp [bookingsCount, statsIsBooking, hr, ih ⟨x, hx2, hxs⟩]

/-- C7 counterexample: on a retrieved set of one row whose summary is NULL
(and duration 30), fetch_stats returns the all-zero dict — the containment
test raises TypeError inside the try block — so totalCalls is 0, not the
count of rows as the claim's formula demands. -/
theorem C7_counterexample :
    fetch_stats true nullSummaryStore = (emptyStats, 1) ∧
    (fetch_stats true nullSummaryStore).1.total_calls ≠
      (nullSummaryTable.length : Int) := by
  decide

/-- C7 (amended): for every retrieved row set in which no summary is NULL,
fetch_stats returns the count of rows, the count of rows whose summary
contains "Confirmed", the rounded mean of the truthy durations (0 if none),
and the rounded percentage of bookings over rows (0 if no rows); a row set
containing a NULL summary raises TypeError in the booking count, which the
handler converts to the all-zero summary, as do any raised query failure and
the unconfigured mode; and on durations [10, 20, 30] with one "Confirmed"
summary of three it returns average 20 and rate 33. -/
theorem C7_fetch_stats (store failStore : Nat → FetchRes) (e : String)
    (rows : List TableRow) (hok : store 0 = .ok rows)
    (hnn : ∀ r ∈ rows, r.summary ≠ none)
    (hfail : failStore 0 = .exn e) :
    fetch_stats true store =
      ({ total_calls := rows.length,
         total_bookings :=
           (rows.filter (fun r => strContains (r.summary.getD "") "Confirmed")).length,
         avg_duration :=
           if ((rows.filter durTruthy).map (fun r => r.duration_seconds.getD 0)).length = 0
           then 0
           else pyRoundFrac
             ((rows.filter durTruthy).map (fun r => r.duration_seconds.getD 0)).sum
             ((rows.filter durTruthy).map (fun r => r.duration_seconds.getD 0)).length,
         booking_rate :=
           if (rows.length : Int) = 0 then 0
           else pyRoundFrac
             (((rows.filter
                 (fun r => strContains (r.summary.getD "") "Confirmed")).length : Int) * 100)
             rows.length }, 1) ∧
    (∀ (rows2 : List TableRow) (store2 : Nat → FetchRes), store2 0 = .ok rows2 →
      (∃ r ∈ rows2, r.summary = none) → fetch_stats true store2 = (emptyStats, 1)) ∧
    fetch_stats true failStore = (emptyStats, 1) ∧
    fetch_stats false store = (emptyStats, 0) ∧
    (fetch_stats true statsExampleStore).1 = ⟨3, 1, 20, 33⟩ := by
  refine ⟨?_, ?_, ?_, ?_, ?_⟩
  · simp [fetch_stats, hok, bookingsCount_of_no_null rows hnn]
  · intro rows2 store2 hok2 hnull
    simp [fetch_stats, hok2, bookingsCount_of_null rows2 hnull]
  · simp [fetch_stats, hfail]
  · simp [fetch_stats]
  · decide

/-- Witness for C7: the acceptance example evaluates to average 20 and rate
33; a NULL-summary row set and a raising store each yield the all-zero
summary. -/
theorem C7_fetch_stats_witness :
    (fetch_stats true statsExampleStore).1 = ⟨3, 1, 20, 33⟩ ∧
    fetch_stats true nullSummaryStore = (emptyStats, 1) ∧
    fetch_stats true failFetchStore = (emptyStats, 1) :=
  ⟨(C7_fetch_stats statsExampleStore failFetchStore "timeout" statsExampleTable
      rfl (by decide) rfl).2.2.2.2,
   (C7_fetch_stats statsExampleStore failFetchStore "timeout" statsExampleTable
      rfl (by decide) rfl).2.1 nullSummaryTable nullSummaryStore rfl
     ⟨nullSummaryRow, by decide, rfl⟩,
   (C7_fetch_stats statsExampleStore failFetchStore "timeout" statsExampleTable
      rfl (by decide) rfl).2.2.1⟩

/-- C8: fetch_bookings performs exactly one query execution whatever the
store answers (also on a transient-classified raise, where it returns the
empty list rather than an error); on success it returns the query's rows —
at most 200, ordered by created_at descending, each the projection to
{id, phone_number, summary, created_at} of a table row whose summary matches
"%Confirmed%" case-insensitively; when unconfigured it returns empty with no
query at all. -/
theorem C8_fetch_bookings (store : Nat → FetchRes) :
    (∀ e, store 0 = .exn e → fetch_bookings true store = ([], 1)) ∧
    (∀ table, store 0 = .ok table →
      fetch_bookings true store = (bookingsQuery table, 1) ∧
      (bookingsQuery table).length ≤ 200 ∧
      List.Pairwise (fun a b => b.created_at ≤ a.created_at) (bookingsQuery table) ∧
      ∀ b ∈ bookingsQuery table, ∃ r ∈ table,
        ilikeConfirmed r = true ∧ b = bookingProj r) ∧
    fetch_bookings false store = ([], 0) := by
  refine ⟨?_, ?_, ?_⟩
  · intro e he
    simp [fetch_bookings, he]
  · intro table ht
    refine ⟨by simp [fetch_bookings, ht], ?_, ?_, ?_⟩
    · have h := List.length_take 200 ((table.filter ilikeConfirmed).mergeSort createdDesc)
      simp only [bookingsQuery, List.length_map, h]
      omega
    · have hsorted : List.Pairwise (fun a b => createdDesc a b = true)
          ((table.filter ilikeConfirmed).mergeSort createdDesc) :=
        List.sorted_mergeSort
          (by intro a b cc hab hbc; simp [createdDesc] at *; omega)
          (by intro a b; simp [createdDesc]; omega)
          (table.filter ilikeConfirmed)
      have htake := List.Pairwise.sublist
        (List.take_sublist 200 ((table.filter ilikeConfirmed).mergeSort createdDesc))
        hsorted
      have hmap : List.Pairwise (fun a b : BookingRow => b.created_at ≤ a.created_at)
          ((((table.filter ilikeConfirmed).mergeSort createdDesc).take 200).map
            bookingProj) :=
        List.Pairwise.map bookingProj
          (fun a b hab => by simpa [createdDesc, bookingProj] using hab) htake
      simpa [bookingsQuery] using hmap
    · intro b hb
      simp only [bookingsQuery, List.mem_map] at hb
      obtain ⟨r, hr, rfl⟩ := hb
      have hr2 : r ∈ (table.filter ilikeConfirmed).mergeSort createdDesc :=
        List.mem_of_mem_take hr
      have hr3 : r ∈ table.filter ilikeConfirmed :=
        (List.mergeSort_perm (table.filter ilikeConfirmed) createdDesc).mem_iff.mp hr2
      rw [List.mem_filter] at hr3
      exact ⟨r, hr3.1, hr3.2, rfl⟩
  · simp [fetch_bookings]

/-- Witness for C8: the two-row table yields exactly its query result with one
execution, and a transient-style raise yields the empty list with one
execution. -/
theorem C8_fetch_bookings_witness :
    fetch_bookings true bkStore = (bookingsQuery bkTable, 1) ∧
    fetch_bookings true failFetchStoreB = ([], 1) :=
  ⟨((C8_fetch_bookings bkStore).2.1 bkTable rfl).1,
   (C8_fetch_bookings failFetchStoreB).1 "525 SSL error" rfl⟩

/-- Mapping over a conditionally-empty list commutes with the conditional. -/
theorem map_ite_nil {α β : Type} (f : α → β) (b : Prop) [Decidable b] (l : List α) :
    List.map f (if b then [] else l) = if b then [] else List.map f l := by
  split <;> rfl

/-- Filtering a conditionally-empty list commutes with the conditional. -/
theorem filter_ite_nil {α : Type} (p : α → Bool) (b : Prop) [Decidable b] (l : List α) :
    List.filter p (if b then [] else l) = if b then [] else List.filter p l := by
  split <;> rfl

/-- C9: the full payload always carries the required columns; each optional
column is present exactly when its field is non-empty (strings) or not None
(options) — in particular recording_url and caller_name are omitted entirely
when empty — and the base payload is the full payload restricted to the base
column set. -/
theorem C9_payload_fields (c : CallRecord) :
    "phone_number" ∈ payloadKeys (full_data c) ∧
    "duration_seconds" ∈ payloadKeys (full_data c) ∧
    "transcript" ∈ payloadKeys (full_data c) ∧
    "summary" ∈ payloadKeys (full_data c) ∧
    "sentiment" ∈ payloadKeys (full_data c) ∧
    "was_booked" ∈ payloadKeys (full_data c) ∧
    "interrupt_count" ∈ payloadKeys (full_data c) ∧
    ("recording_url" ∈ payloadKeys (full_data c) ↔ c.recording_url ≠ "") ∧
    ("caller_name" ∈ payloadKeys (full_data c) ↔ c.caller_name ≠ "") ∧
    ("estimated_cost_usd" ∈ payloadKeys (full_data c) ↔ c.estimated_cost_usd ≠ none) ∧
    ("call_date" ∈ payloadKeys (full_data c) ↔ optStrTruthy c.call_date = true) ∧
    ("call_hour" ∈ payloadKeys (full_data c) ↔ c.call_hour ≠ none) ∧
    ("call_day_of_week" ∈ payloadKeys (full_data c) ↔ optStrTruthy c.call_day_of_week = true) ∧
    base_data c = (full_data c).filter (fun kv => BASE_COLUMNS.contains kv.1) := by
  obtain ⟨ph, du, tr, su, ru, cn, se, co, cd, ch, cw, wb, ic⟩ := c
  rcases co with _ | cox <;> rcases ch with _ | chx <;>
    rcases cd with _ | cdx <;> rcases cw with _ | cwx <;>
    simp [full_data, base_data, payloadKeys, optStrTruthy, map_ite_nil,
      filter_ite_nil, List.mem_ite_nil_left, List.filter_append,
      ANALYTICS_COLUMNS, BASE_COLUMNS]

/-- C10: on a summary containing "confirmed" but not "Confirmed", the
fetch_bookings ilike filter matches (case-insensitive) while the fetch_stats
booking count does not (case-sensitive): the row is returned by
fetch_bookings yet contributes zero to total_bookings. -/
theorem C10_booking_classifier_split (r : TableRow) (s : String)
    (hsum : r.summary = some s)
    (h1 : strContains s "confirmed" = true)
    (h2 : strContains s "Confirmed" = false) :
    ilikeConfirmed r = true ∧ statsIsBooking r = some false ∧
    (fetch_bookings true (fun _ => .ok [r])).1 = [bookingProj r] ∧
    (fetch_stats true (fun _ => .ok [r])).1.total_bookings = 0 := by
  have hlow : strLower "confirmed" = "confirmed" := by decide
  have hConf : strLower "Confirmed" = "confirmed" := by decide
  have hilike : ilikeConfirmed r = true := by
    rw [ilikeConfirmed, hsum, hConf]
    have := strContains_lower_mono h1
    rwa [hlow] at this
  have hstats : statsIsBooking r = some false := by
    rw [statsIsBooking, hsum]
    simpa using h2
  refine ⟨hilike, hstats, ?_, ?_⟩
  · simp [fetch_bookings, bookingsQuery, List.filter, hilike]
  · simp [fetch_stats, bookingsCount, hstats]

/-- Witness for C10 at a concrete row whose summary is
"appointment confirmed". -/
theorem C10_booking_classifier_split_witness :
    ilikeConfirmed lowerConfirmedRow = true ∧
    statsIsBooking lowerConfirmedRow = some false :=
  ⟨(C10_booking_classifier_split lowerConfirmedRow "appointment confirmed" rfl
      (by decide) (by decide)).1,
   (C10_booking_classifier_split lowerConfirmedRow "appointment confirmed" rfl
      (by decide) (by decide)).2.1⟩
